import Mathlib

/-!
Verification of the Acx-Shell request handler (src/app.py).

The file embeds the `/protect` request handler `protect_apk` of `src/app.py`
as a pure Lean function.  All interaction with the outside world (the
filesystem, the child processes, the clock) is summarized in an explicit
environment record `Env` that is passed to the handler; the handler returns a
`JobTrace` recording the HTTP response it produced together with the
observable side effects the claims talk about: whether the per-job workspace
directory was created and later removed, the working directory of the process
when the handler returns, the final state of the external-tool child process,
and which output file was selected.

Python strings are embedded as Lean `String`; the Python string methods used
by the source (`lower`, `endswith`, `startswith`, `strip`, `in`) are given
structurally recursive Lean counterparts over the underlying character lists
so that every definition evaluates inside the kernel.
-/

/-! ## Embeddings of the Python string methods used by src/app.py -/

/-- ASCII lower-casing of one character, as Python `str.lower` acts on the
ASCII range used by the claims. -/
def pyLowerChar (c : Char) : Char :=
  if 65 ≤ c.toNat ∧ c.toNat ≤ 90 then Char.ofNat (c.toNat + 32) else c

/-- Embeds Python `s.lower()`. -/
def py_lower (s : String) : String := ⟨s.data.map pyLowerChar⟩

/-- Embeds Python `s.endswith(t)`. -/
def py_endswith (s t : String) : Bool := t.data.isSuffixOf s.data

/-- Embeds Python `s.startswith(t)`. -/
def py_startswith (s t : String) : Bool := t.data.isPrefixOf s.data

/-- The whitespace characters removed by Python `str.strip()`. -/
def pyIsSpace (c : Char) : Bool :=
  c.toNat == 32 || c.toNat == 9 || c.toNat == 10 || c.toNat == 13 ||
    c.toNat == 11 || c.toNat == 12

/-- Embeds Python `s.strip()`. -/
def py_strip (s : String) : String :=
  ⟨((s.data.dropWhile pyIsSpace).reverse.dropWhile pyIsSpace).reverse⟩

/-- Embeds the Python substring test `needle in hay`. -/
def py_contains (hay needle : String) : Bool :=
  hay.data.tails.any (fun t => needle.data.isPrefixOf t)

/-- Embeds Python `a or b` on strings: the empty string is falsy, so the
result is `b` when `a` is empty and `a` otherwise.  Used by src/app.py line
234 (`result.stderr or result.stdout`) and line 265. -/
def pyOr (a b : String) : String := if a = "" then b else a

/-- Modelled from the spec: the sanitizer applied to the uploaded filename
(werkzeug `secure_filename`, an external library not under src/).  The spec
only says the response filename is the `protected_` marker followed by the
sanitized original name; the sanitizer is modelled as keeping ASCII letters,
digits, dot, dash and underscore. -/
def secure_filename (s : String) : String :=
  ⟨s.data.filter fun c =>
    c.isAlpha || c.isDigit || c.toNat == 46 || c.toNat == 45 || c.toNat == 95⟩

/-! ## Data model of one request -/

/-- The uploaded file part of the multipart request.  `present` embeds the
check that the apk_file part is in request.files; `bytes` is the actual
transmitted
content; `declaredLength` stands for the caller-supplied Content-Length
header, which src/app.py never consults for the size check (it measures the
received stream with seek and tell, lines 73 to 75). -/
structure UploadedFile where
  present : Bool
  filename : String
  bytes : List Nat
  declaredLength : Nat

/-- The option fields of the form.  In src/app.py each boolean option is the
test of request.form.get(name) against the text true (lines 169 to 203); the
field here is
the Boolean value of that test.  `exclude_abis` is the raw string value of the
form field, defaulting to the empty string (line 197). -/
structure RequestForm where
  debug : Bool
  disable_acf : Bool
  dump_code : Bool
  keep_classes : Bool
  noisy_log : Bool
  smaller : Bool
  exclude_abis : String
  use_protect_config : Bool

/-- Behavior of one child-process invocation, as supplied by the world:
it either finishes after `duration` time units with an exit code and the two
captured streams, or the executable is missing (Python FileNotFoundError), or
launching raises some other exception. -/
inductive ToolBehavior where
  | finishes (duration : Nat) (returncode : Int) (stdout stderr : String)
  | notFound (msg : String)
  | raises (msg : String)
deriving DecidableEq

/-- Outcome of `subprocess.run` with a given `timeout`, as observed by the
caller. -/
inductive ToolOutcome where
  | completed (returncode : Int) (stdout stderr : String)
  | timedOut
  | notFound (msg : String)
  | raised (msg : String)
deriving DecidableEq

/-- Embeds the contract of Python `subprocess.run(cmd, timeout)` used at
src/app.py lines 132, 223, 306 and 322: if the child does not finish within
`timeout` time units, `subprocess.run` kills the child, waits for it, and
raises TimeoutExpired; otherwise it returns the exit code and both captured
streams. -/
def runTool (timeout : Nat) (b : ToolBehavior) : ToolOutcome :=
  match b with
  | .finishes d rc out err => if d > timeout then .timedOut else .completed rc out err
  | .notFound m => .notFound m
  | .raises m => .raised m

/-- Environment of the best-effort signature-verification block, src/app.py
lines 271 to 349.  `apksignerFound` says whether an apksigner executable was
resolved under the SDK root and exists; the two behaviors describe the
apksigner and jarsigner child processes.  In the source `jarsigner_cmd` is
assigned a non-None string on every branch (lines 296 to 300), so the
jarsigner attempt is guarded only by `not signature_valid`.  `outerRaised`
stands for an exception raised inside the outer verification `try` outside
the two guarded attempts (caught at line 347). -/
structure VerifyEnv where
  apksignerFound : Bool
  apksignerBehavior : ToolBehavior
  jarsignerBehavior : ToolBehavior
  outerRaised : Option String
deriving DecidableEq

/-- Embeds the signature verification block, src/app.py lines 302 to 334:
`signature_valid` starts false; the apksigner attempt (30 time unit timeout)
sets it when the exit code is 0; when still false, the jarsigner attempt
(30 time unit timeout) sets it when the exit code is 0 and the lowercased
stdout contains the text `jar verified`.  Every exception inside an attempt is
caught and only logged (lines 317 and 333); an exception in the outer block is
caught at line 347.  The result is used only for logging. -/
def runVerification (v : VerifyEnv) : Bool :=
  match v.outerRaised with
  | some _ => false
  | none =>
    let afterApksigner : Bool :=
      if v.apksignerFound then
        match runTool 30 v.apksignerBehavior with
        | .completed rc _ _ => rc == 0
        | _ => false
      else false
    if afterApksigner then true
    else
      match runTool 30 v.jarsignerBehavior with
      | .completed rc out _ => rc == 0 && py_contains (py_lower out) "jar verified"
      | _ => false

/-- Outcome of reading the resolved output file into memory, src/app.py lines
393 to 418: the bytes, an IOError, or some other exception. -/
inductive ReadOutcome where
  | ok (data : List Nat)
  | ioError (msg : String)
  | raised (msg : String)
deriving DecidableEq

/-- All interaction of the handler with the world outside the request:
the unique workspace path chosen by mkdtemp, the project root, the JAVA_HOME
resolution data (lines 117 to 125), the behavior of the java version probe
(line 132), whether the bundled protect-config template file exists (line
205), the behavior of the protection-tool child process (line 223), the files
found under the output directory by `os.walk` in traversal order (lines 250
to 253), the verification environment, and the outcome of reading the
selected output file. -/
structure Env where
  tempDir : String
  projectRoot : String
  javaHome : Option String
  javaHomeBinJavaExists : Bool
  javaBehavior : ToolBehavior
  configTemplateExists : Bool
  toolBehavior : ToolBehavior
  outputWalk : List String
  verify : VerifyEnv
  readResult : ReadOutcome
deriving DecidableEq

/-- Embeds the java command resolution, src/app.py lines 117 to 125 (POSIX
branch): when JAVA_HOME is set and bin/java exists under
it, that path is used, otherwise the bare name `java`. -/
def resolve_java_cmd (javaHome : Option String) (binJavaExists : Bool) : String :=
  match javaHome with
  | some p => if binJavaExists then p ++ "/bin/java" else "java"
  | none => "java"

/-- The maximum accepted upload size, src/app.py line 76:
150 times 1024 times 1024 bytes. -/
def max_size : Nat := 150 * 1024 * 1024

/-- Embeds the file-type check of src/app.py line 64: the lowercased
filename must end in .apk or .aab. -/
def hasValidExt (filename : String) : Bool :=
  py_endswith (py_lower filename) ".apk" || py_endswith (py_lower filename) ".aab"

/-- Embeds the filter of src/app.py line 252 applied to the walked output
files: f must end in .apk or .aab, case sensitively, unlike the upload
check. -/
def isOutputExt (f : String) : Bool :=
  py_endswith f ".apk" || py_endswith f ".aab"

/-- Embeds the command construction, src/app.py lines 164 to 208: the base
vector of java_cmd, the -jar flag with the tool jar path, the -f flag with
the input path and the -o flag with the output directory, then one appended
flag per enabled option in source order;
`exclude_abis` is stripped and contributes `-e value` when non-empty; the
config flag `-c config_file` is appended only when the option is enabled and
the template file exists on disk (line 205). -/
def buildCmd (java_cmd dpt_jar_path input_file_path output_dir config_file : String)
    (form : RequestForm) (configTemplateExists : Bool) : List String :=
  let cmd := [java_cmd, "-jar", dpt_jar_path, "-f", input_file_path, "-o", output_dir]
  let cmd := if form.debug then cmd ++ ["--debug"] else cmd
  let cmd := if form.disable_acf then cmd ++ ["--disable-acf"] else cmd
  let cmd := if form.dump_code then cmd ++ ["--dump-code"] else cmd
  let cmd := if form.keep_classes then cmd ++ ["-K"] else cmd
  let cmd := if form.noisy_log then cmd ++ ["--noisy-log"] else cmd
  let cmd := if form.smaller then cmd ++ ["-S"] else cmd
  let exclude_abis := py_strip form.exclude_abis
  let cmd := if exclude_abis ≠ "" then cmd ++ ["-e", exclude_abis] else cmd
  let cmd :=
    if form.use_protect_config then
      if configTemplateExists then cmd ++ ["-c", config_file] else cmd
    else cmd
  cmd

/-- The distinct return points of the handler, one constructor per `return`
statement family of src/app.py, carrying the data computed at that point. -/
inductive HResp where
  | errNoFile
  | errNoName
  | errBadType
  | errTooLarge (sizeBytes : Nat)
  | errAlreadyProtected
  | errJavaMissing (details : String)
  | errToolFailed (returncode : Int) (details : String)
  | errNoOutput (details : String)
  | errEmptyOutput
  | errReadFailed (msg : String)
  | errReadUnexpected (msg : String)
  | errTimeout
  | errInternal (details : String)
  | fileResponse (filename : String) (data : List Nat) (contentLength : Nat)
deriving DecidableEq

/-- The HTTP status code attached to each return point in src/app.py. -/
def respStatus : HResp → Nat
  | .errNoFile => 400
  | .errNoName => 400
  | .errBadType => 400
  | .errTooLarge _ => 400
  | .errAlreadyProtected => 400
  | .fileResponse _ _ _ => 200
  | _ => 500

/-- Whether a response is the TooLarge rejection. -/
def isTooLargeResp : HResp → Bool
  | .errTooLarge _ => true
  | _ => false

/-- Whether a response is a ToolFailed rejection carrying non-empty
diagnostic text. -/
def hasNonemptyToolFailureDetails : HResp → Bool
  | .errToolFailed _ d => d != ""
  | _ => false

/-- The working directory of the server process when the handler returns:
either the directory that was current when the request arrived, or the job
workspace directory it chdir-ed into at src/app.py line 217. -/
inductive Cwd where
  | original
  | workspace
deriving DecidableEq

/-- Final state of the protection-tool child process. -/
inductive ProcState where
  | notStarted
  | exited (returncode : Int)
  | killed
deriving DecidableEq

/-- Everything observable about one handled request: the response produced,
whether the workspace directory was created (mkdtemp, line 105) and whether
it was removed again (rmtree at lines 422, 512 or 552), the process working
directory at return, the final state of the tool child process, the output
file selected by the resolver, and the advisory signature-verification
result. -/
structure JobTrace where
  resp : HResp
  workspaceCreated : Bool
  workspaceRemoved : Bool
  cwdAtEnd : Cwd
  procFinal : ProcState
  resolvedOutput : Option String
  signatureValid : Bool
deriving DecidableEq

/-- A trace for the rejections issued before the workspace is created:
no filesystem allocation, no chdir, no child process. -/
def earlyReject (r : HResp) : JobTrace :=
  { resp := r
    workspaceCreated := false
    workspaceRemoved := false
    cwdAtEnd := .original
    procFinal := .notStarted
    resolvedOutput := none
    signatureValid := false }

/-- A trace for the paths reached after mkdtemp. -/
def afterWorkspace (r : HResp) (removed : Bool) (cwd : Cwd) (proc : ProcState)
    (resolved : Option String) (sig : Bool) : JobTrace :=
  { resp := r
    workspaceCreated := true
    workspaceRemoved := removed
    cwdAtEnd := cwd
    procFinal := proc
    resolvedOutput := resolved
    signatureValid := sig }

/-- The JDK guidance text returned by the java probe failures, src/app.py
lines 144 and 153. -/
def javaMissingDetails : String :=
  "Please ensure Java JDK 21 is installed and JAVA_HOME is set correctly."

/-- Embeds the request handler `protect_apk`, src/app.py lines 46 to 524.

Control flow, in source order: presence, empty-name, extension, size and
already-protected checks (lines 53 to 97, all before mkdtemp); workspace
creation (line 105); java resolution and 5 time unit version probe (lines
117 to 162; note the probe accepts any exit code, it only distinguishes
timeout, missing executable and other exceptions); command construction
(lines 164 to 208); chdir into the workspace (line 217); the tool run with a
300 time unit timeout (line 223).  On non-zero exit the handler returns at
line 242 with `result.stderr or result.stdout` as details, without restoring
the working directory and without removing the workspace.  Otherwise the
output directory walk is filtered for `.apk`/`.aab` names (lines 250 to 253);
an empty list returns at line 263, again without chdir restore or workspace
removal.  Otherwise the first file in traversal order is selected, the
advisory verification runs, the working directory is restored (line 352), the
file is read (lines 393 to 418; IOError and other exceptions return without
removing the workspace, and an empty read returns at line 400 likewise), the
workspace is removed (line 422), and the file response is produced with the
name `protected_` plus the sanitized original filename (line 390).  The
TimeoutExpired and generic exception handlers (lines 495 to 564) restore the
working directory and remove the workspace.  Response object construction
(lines 454 to 485) is modelled as succeeding. -/
def protect_apk (file : UploadedFile) (form : RequestForm) (env : Env) : JobTrace :=
  if file.present = false then
    earlyReject .errNoFile
  else if file.filename = "" then
    earlyReject .errNoName
  else if hasValidExt file.filename = false then
    earlyReject .errBadType
  else if file.bytes.length > max_size then
    earlyReject (.errTooLarge file.bytes.length)
  else if py_startswith file.filename "protected_" = true then
    earlyReject .errAlreadyProtected
  else
    -- mkdtemp: from here on the workspace directory exists
    let input_file_path := env.tempDir ++ "/" ++ secure_filename file.filename
    let output_dir := env.tempDir ++ "/output"
    let java_cmd := resolve_java_cmd env.javaHome env.javaHomeBinJavaExists
    match runTool 5 env.javaBehavior with
    | .timedOut =>
      afterWorkspace (.errJavaMissing javaMissingDetails) false .original .notStarted none false
    | .notFound _ =>
      afterWorkspace (.errJavaMissing javaMissingDetails) false .original .notStarted none false
    | .raised msg =>
      afterWorkspace (.errJavaMissing ("Error: " ++ msg)) false .original .notStarted none false
    | .completed _ _ _ =>
      let dpt_jar_path := env.projectRoot ++ "/executable/dpt.jar"
      let config_file := env.projectRoot ++ "/executable/dpt-protect-config-template.json"
      let _cmd := buildCmd java_cmd dpt_jar_path input_file_path output_dir config_file
        form env.configTemplateExists
      -- os.chdir(temp_dir), line 217
      match runTool 300 env.toolBehavior with
      | .timedOut =>
        -- lines 495 to 524: chdir restore, rmtree, 500
        afterWorkspace .errTimeout true .original .killed none false
      | .notFound msg =>
        -- FileNotFoundError reaches the generic handler, lines 525 to 564
        afterWorkspace (.errInternal ("Error running protection: " ++ msg))
          true .original .notStarted none false
      | .raised msg =>
        afterWorkspace (.errInternal ("Error running protection: " ++ msg))
          true .original .notStarted none false
      | .completed rc stdout stderr =>
        if rc ≠ 0 then
          -- line 242: returns without chdir restore and without rmtree
          afterWorkspace (.errToolFailed rc (pyOr stderr stdout))
            false .workspace (.exited rc) none false
        else
          let output_files := env.outputWalk.filter isOutputExt
          match output_files with
          | [] =>
            -- line 263: returns without chdir restore and without rmtree
            afterWorkspace
              (.errNoOutput (pyOr stdout (pyOr stderr "No output file found in output directory")))
              false .workspace (.exited 0) none false
          | output_file :: _ =>
            let signature_valid := runVerification env.verify
            -- os.chdir(original_cwd), line 352, then the read
            match env.readResult with
            | .ioError msg =>
              afterWorkspace (.errReadFailed ("Could not read the output file: " ++ msg))
                false .original (.exited 0) (some output_file) signature_valid
            | .raised msg =>
              afterWorkspace (.errReadUnexpected msg)
                false .original (.exited 0) (some output_file) signature_valid
            | .ok file_data =>
              if file_data.length = 0 then
                afterWorkspace .errEmptyOutput
                  false .original (.exited 0) (some output_file) signature_valid
              else
                -- rmtree, line 422, then the file response
                afterWorkspace
                  (.fileResponse ("protected_" ++ secure_filename file.filename)
                    file_data file_data.length)
                  true .original (.exited 0) (some output_file) signature_valid

/-- The validation conjunction under which the handler reaches the workspace
and invocation stages: the file part is present, the name is non-empty and
has an accepted extension, the received size is within the limit, and the
name does not carry the already-processed marker. -/
def reachesInvocation (file : UploadedFile) : Prop :=
  file.present = true ∧ file.filename ≠ "" ∧ hasValidExt file.filename = true ∧
    file.bytes.length ≤ max_size ∧ py_startswith file.filename "protected_" = false

instance (file : UploadedFile) : Decidable (reachesInvocation file) := by
  unfold reachesInvocation; infer_instance

/-- The command vector exactly as claim C3 states it: the fixed leading part,
then one flag per selected option in the fixed order, with the config flag
present whenever the option is selected.  This definition follows the words
of the claim; `buildCmd` above follows the source, and the two differ on the
config flag when the bundled template file is absent. -/
def claimedCmd (java_cmd dpt_jar_path input_file_path output_dir config_file : String)
    (form : RequestForm) : List String :=
  [java_cmd, "-jar", dpt_jar_path, "-f", input_file_path, "-o", output_dir]
    ++ (if form.debug then ["--debug"] else [])
    ++ (if form.disable_acf then ["--disable-acf"] else [])
    ++ (if form.dump_code then ["--dump-code"] else [])
    ++ (if form.keep_classes then ["-K"] else [])
    ++ (if form.noisy_log then ["--noisy-log"] else [])
    ++ (if form.smaller then ["-S"] else [])
    ++ (if py_strip form.exclude_abis ≠ "" then ["-e", py_strip form.exclude_abis] else [])
    ++ (if form.use_protect_config then ["-c", config_file] else [])

/-! ## Concrete inputs used by the closed theorems and the witnesses -/

/-- A form with no option selected. -/
def form0 : RequestForm :=
  { debug := false, disable_acf := false, dump_code := false, keep_classes := false,
    noisy_log := false, smaller := false, exclude_abis := "", use_protect_config := false }

/-- A form selecting only the protect-config template option. -/
def formConfigOnly : RequestForm := { form0 with use_protect_config := true }

/-- A verification environment in which neither verifier executable exists. -/
def verify0 : VerifyEnv :=
  { apksignerFound := false, apksignerBehavior := .notFound "no apksigner",
    jarsignerBehavior := .notFound "no jarsigner", outerRaised := none }

/-- A nominal environment: java responds, the tool finishes quickly with exit
code 0, one .apk file appears under the output directory, and the read
returns three bytes. -/
def env0 : Env :=
  { tempDir := "/tmp/apk_protect_x1", projectRoot := "/srv/acx",
    javaHome := none, javaHomeBinJavaExists := false,
    javaBehavior := .finishes 1 0 "" "openjdk 21",
    configTemplateExists := true,
    toolBehavior := .finishes 1 0 "ok" "",
    outputWalk := ["/tmp/apk_protect_x1/output/app.apk"],
    verify := verify0, readResult := .ok [1, 2, 3] }

/-- A present, small, validly named upload. -/
def file0 : UploadedFile :=
  { present := true, filename := "app.apk", bytes := [0], declaredLength := 1 }

/-! ## Claim theorems -/

/-- C1: the claim says the workspace directory no longer exists whenever the
job reaches a terminal state after the directory was created.  The code
violates this: when the external tool exits non-zero, the handler returns the
500 response at src/app.py line 242 without ever calling rmtree on the
workspace, so the job ends in the Failed terminal state with the workspace
directory still present.  This closed theorem evaluates the handler at such
an input: the workspace was created, the response status is 500, and the
workspace was not removed. -/
theorem protect_apk_workspace_leak_on_tool_failure :
    (protect_apk file0 form0
        { env0 with toolBehavior := .finishes 1 1 "" "boom" }).workspaceCreated = true ∧
    (protect_apk file0 form0
        { env0 with toolBehavior := .finishes 1 1 "" "boom" }).workspaceRemoved = false ∧
    respStatus (protect_apk file0 form0
        { env0 with toolBehavior := .finishes 1 1 "" "boom" }).resp = 500 := by
  decide

/-- C2: the claim says the prior working directory is restored after every
invocation outcome.  The code violates this: on a non-zero tool exit the
handler returns at src/app.py line 242 before the chdir back at line 352, so
the process is left inside the workspace directory.  This closed theorem
evaluates the handler at such an input: the final working directory is the
workspace, not the original directory. -/
theorem protect_apk_cwd_left_in_workspace_on_tool_failure :
    (protect_apk file0 form0
        { env0 with toolBehavior := .finishes 1 3 "" "oops" }).cwdAtEnd = Cwd.workspace ∧
    Cwd.workspace ≠ Cwd.original := by
  decide

/-- C3 counterexample: with only the config-template option selected but the
bundled template file absent from disk, the source appends no -c flag (the
existence check at src/app.py line 205), so the vector differs from the one
the claim describes, which has the -c flag for every selection of the
option. -/
theorem buildCmd_config_flag_requires_template_cex :
    buildCmd "java" "/srv/acx/executable/dpt.jar" "/tmp/w/in.apk" "/tmp/w/output"
        "/srv/acx/executable/dpt-protect-config-template.json" formConfigOnly false ≠
      claimedCmd "java" "/srv/acx/executable/dpt.jar" "/tmp/w/in.apk" "/tmp/w/output"
        "/srv/acx/executable/dpt-protect-config-template.json" formConfigOnly := by
  decide

/-- C3 amended: the argument vector is the fixed leading part (java command,
-jar, tool jar path, -f, input path, -o, output directory) followed by
exactly one flag segment per selected option in the fixed order debug,
disable-acf, dump-code, -K, noisy-log, -S, -e with the stripped value, and -c
with the template path; nothing for an unselected option; and the -c segment
additionally requires the bundled template file to exist on disk. -/
theorem buildCmd_canonical_form
    (java_cmd dpt_jar_path input_file_path output_dir config_file : String)
    (form : RequestForm) (configTemplateExists : Bool) :
    buildCmd java_cmd dpt_jar_path input_file_path output_dir config_file
        form configTemplateExists =
      [java_cmd, "-jar", dpt_jar_path, "-f", input_file_path, "-o", output_dir]
        ++ (if form.debug then ["--debug"] else [])
        ++ (if form.disable_acf then ["--disable-acf"] else [])
        ++ (if form.dump_code then ["--dump-code"] else [])
        ++ (if form.keep_classes then ["-K"] else [])
        ++ (if form.noisy_log then ["--noisy-log"] else [])
        ++ (if form.smaller then ["-S"] else [])
        ++ (if py_strip form.exclude_abis ≠ "" then ["-e", py_strip form.exclude_abis] else [])
        ++ (if form.use_protect_config && configTemplateExists then
              ["-c", config_file]
            else []) := by
  obtain ⟨d1, d2, d3, d4, d5, d6, ex, cu⟩ := form
  simp only [buildCmd]
  by_cases hx : py_strip ex ≠ "" <;>
    cases d1 <;> cases d2 <;> cases d3 <;> cases d4 <;> cases d5 <;> cases d6 <;>
      cases cu <;> cases configTemplateExists <;> simp [hx]

/-- C4: when the external tool runs longer than the 300 time unit timeout,
the job fails with the timeout error at status 500 and the child process is
not left running: the embedded subprocess contract kills the child on
expiry, so the final process state is killed. -/
theorem protect_apk_timeout_gives_500_and_kills_child
    (file : UploadedFile) (form : RequestForm) (env : Env)
    (jrc : Int) (jout jerr : String) (d : Nat) (rc : Int) (out err : String)
    (hreach : reachesInvocation file)
    (hj : runTool 5 env.javaBehavior = ToolOutcome.completed jrc jout jerr)
    (ht : env.toolBehavior = ToolBehavior.finishes d rc out err) (hd : d > 300) :
    (protect_apk file form env).resp = HResp.errTimeout ∧
    respStatus (protect_apk file form env).resp = 500 ∧
    (protect_apk file form env).procFinal = ProcState.killed := by
  obtain ⟨hp, hn, he, hs, hpr⟩ := hreach
  have hns : ¬ (file.bytes.length > max_size) := not_lt.mpr hs
  simp only [protect_apk, hp, hn, he, hns, hpr]
  rw [hj, ht]
  simp [runTool, hd, afterWorkspace, respStatus]

/-- C4 witness: a run of 301 time units at a concrete valid upload yields the
timeout error, status 500, and a killed child. -/
theorem protect_apk_timeout_gives_500_and_kills_child_witness :
    reachesInvocation file0 ∧
    runTool 5 ({ env0 with toolBehavior := ToolBehavior.finishes 301 0 "" "" } : Env).javaBehavior
      = ToolOutcome.completed 0 "" "openjdk 21" ∧
    ({ env0 with toolBehavior := ToolBehavior.finishes 301 0 "" "" } : Env).toolBehavior
      = ToolBehavior.finishes 301 0 "" "" ∧
    (301 : Nat) > 300 ∧
    ((protect_apk file0 form0
        { env0 with toolBehavior := ToolBehavior.finishes 301 0 "" "" }).resp
          = HResp.errTimeout ∧
      respStatus (protect_apk file0 form0
          { env0 with toolBehavior := ToolBehavior.finishes 301 0 "" "" }).resp = 500 ∧
      (protect_apk file0 form0
          { env0 with toolBehavior := ToolBehavior.finishes 301 0 "" "" }).procFinal
        = ProcState.killed) :=
  ⟨by decide, by decide, rfl, by decide,
    protect_apk_timeout_gives_500_and_kills_child file0 form0 _ 0 "" "openjdk 21"
      301 0 "" "" (by decide) (by decide) rfl (by decide)⟩

/-- C5 counterexample: the claim says the ToolFailed details text is always
non-empty.  When the tool exits non-zero with both captured streams empty,
src/app.py line 234 computes the details as stderr or stdout, which is the
empty string, so the 500 response carries empty details. -/
theorem protect_apk_tool_failure_empty_details_cex :
    (protect_apk file0 form0
        { env0 with toolBehavior := .finishes 1 1 "" "" }).resp
      = HResp.errToolFailed 1 "" ∧
    hasNonemptyToolFailureDetails (protect_apk file0 form0
        { env0 with toolBehavior := .finishes 1 1 "" "" }).resp = false ∧
    respStatus (protect_apk file0 form0
        { env0 with toolBehavior := .finishes 1 1 "" "" }).resp = 500 := by
  decide

/-- C5 amended: when the external tool exits non-zero, the job fails with the
ToolFailed error at status 500 carrying as details the captured stderr, or
the captured stdout when stderr is empty; no file result is returned; and the
details are non-empty whenever at least one of the two streams is non-empty
(with both streams empty the details are empty, which is what the
counterexample exhibits). -/
theorem protect_apk_nonzero_exit_tool_failed
    (file : UploadedFile) (form : RequestForm) (env : Env)
    (jrc : Int) (jout jerr : String) (rc : Int) (out err : String)
    (hreach : reachesInvocation file)
    (hj : runTool 5 env.javaBehavior = ToolOutcome.completed jrc jout jerr)
    (ht : runTool 300 env.toolBehavior = ToolOutcome.completed rc out err)
    (hrc : rc ≠ 0) :
    (protect_apk file form env).resp = HResp.errToolFailed rc (pyOr err out) ∧
    respStatus (protect_apk file form env).resp = 500 ∧
    (∀ fn dat n, (protect_apk file form env).resp ≠ HResp.fileResponse fn dat n) ∧
    (err ≠ "" ∨ out ≠ "" → pyOr err out ≠ "") := by
  obtain ⟨hp, hn, he, hs, hpr⟩ := hreach
  have hns : ¬ (file.bytes.length > max_size) := not_lt.mpr hs
  refine ⟨?_, ?_, ?_, ?_⟩ <;>
    first
      | (simp only [protect_apk, hp, hn, he, hns, hpr]
         rw [hj, ht]
         simp [hrc, afterWorkspace, respStatus])
      | (intro h
         unfold pyOr
         rcases h with h | h <;> split <;> simp_all)

/-- C5 witness: a tool exit with code 1, stdout out and stderr boom at a
concrete valid upload gives the ToolFailed response with details boom. -/
theorem protect_apk_nonzero_exit_tool_failed_witness :
    reachesInvocation file0 ∧
    runTool 5 ({ env0 with toolBehavior := ToolBehavior.finishes 1 1 "out" "boom" } : Env).javaBehavior
      = ToolOutcome.completed 0 "" "openjdk 21" ∧
    runTool 300 ({ env0 with toolBehavior := ToolBehavior.finishes 1 1 "out" "boom" } : Env).toolBehavior
      = ToolOutcome.completed 1 "out" "boom" ∧
    (1 : Int) ≠ 0 ∧
    ((protect_apk file0 form0
        { env0 with toolBehavior := ToolBehavior.finishes 1 1 "out" "boom" }).resp
          = HResp.errToolFailed 1 (pyOr "boom" "out") ∧
      respStatus (protect_apk file0 form0
          { env0 with toolBehavior := ToolBehavior.finishes 1 1 "out" "boom" }).resp = 500 ∧
      (∀ fn dat n,
        (protect_apk file0 form0
            { env0 with toolBehavior := ToolBehavior.finishes 1 1 "out" "boom" }).resp
          ≠ HResp.fileResponse fn dat n) ∧
      (("boom" : String) ≠ "" ∨ ("out" : String) ≠ "" → pyOr "boom" "out" ≠ "")) :=
  ⟨by decide, by decide, by decide, by decide,
    protect_apk_nonzero_exit_tool_failed file0 form0 _ 0 "" "openjdk 21" 1 "out" "boom"
      (by decide) (by decide) (by decide) (by decide)⟩

/-- C6: the size check measures the received bytes; every upload whose byte
length is within the 150 MiB limit passes the check (the response is never
the TooLarge rejection), every strictly larger upload is rejected with the
TooLarge error at status 400 before the workspace directory is created, and
the handler result is entirely independent of the caller-declared content
length. -/
theorem protect_apk_size_check
    (file : UploadedFile) (form : RequestForm) (env : Env)
    (hp : file.present = true) (hn : file.filename ≠ "")
    (he : hasValidExt file.filename = true) :
    (file.bytes.length ≤ max_size →
      isTooLargeResp (protect_apk file form env).resp = false) ∧
    (file.bytes.length > max_size →
      (protect_apk file form env).resp = HResp.errTooLarge file.bytes.length ∧
      respStatus (protect_apk file form env).resp = 400 ∧
      (protect_apk file form env).workspaceCreated = false) ∧
    (∀ n : Nat, protect_apk { file with declaredLength := n } form env
        = protect_apk file form env) := by
  refine ⟨?_, ?_, ?_⟩
  · intro hle
    have hns : ¬ (file.bytes.length > max_size) := not_lt.mpr hle
    simp only [protect_apk, hp, hn, he, hns]
    repeat' split
    all_goals simp [earlyReject, afterWorkspace, isTooLargeResp]
  · intro hgt
    simp [protect_apk, hp, hn, he, hgt, earlyReject, respStatus]
  · intro n
    rfl

/-- C6 witness: the concrete one-byte upload passes the size check, and a
concrete upload of 157286401 bytes, one more than the limit, is rejected with
TooLarge before any workspace is created. -/
theorem protect_apk_size_check_witness :
    file0.present = true ∧ file0.filename ≠ "" ∧ hasValidExt file0.filename = true ∧
    ((file0.bytes.length ≤ max_size →
        isTooLargeResp (protect_apk file0 form0 env0).resp = false) ∧
      (file0.bytes.length > max_size →
        (protect_apk file0 form0 env0).resp = HResp.errTooLarge file0.bytes.length ∧
        respStatus (protect_apk file0 form0 env0).resp = 400 ∧
        (protect_apk file0 form0 env0).workspaceCreated = false) ∧
      (∀ n : Nat, protect_apk { file0 with declaredLength := n } form0 env0
          = protect_apk file0 form0 env0)) ∧
    ({ file0 with bytes := List.replicate 157286401 0 } : UploadedFile).bytes.length
        > max_size ∧
    (protect_apk { file0 with bytes := List.replicate 157286401 0 } form0 env0).resp
      = HResp.errTooLarge
          ({ file0 with bytes := List.replicate 157286401 0 } : UploadedFile).bytes.length ∧
    (protect_apk { file0 with bytes := List.replicate 157286401 0 } form0 env0).workspaceCreated
      = false := by
  have hbig : ({ file0 with bytes := List.replicate 157286401 0 } : UploadedFile).bytes.length
      > max_size := by
    show (List.replicate 157286401 (0 : Nat)).length > max_size
    rw [List.length_replicate]
    decide
  refine ⟨by decide, by decide, by decide,
    protect_apk_size_check file0 form0 env0 (by decide) (by decide) (by decide),
    hbig, ?_, ?_⟩
  · exact ((protect_apk_size_check { file0 with bytes := List.replicate 157286401 0 }
      form0 env0 (by decide) (by decide) (by decide)).2.1 hbig).1
  · exact ((protect_apk_size_check { file0 with bytes := List.replicate 157286401 0 }
      form0 env0 (by decide) (by decide) (by decide)).2.1 hbig).2.2

/-- C7: after a zero-exit tool run, the handler produces the NoOutputProduced
error exactly when the recursive walk of the output directory contains no
file ending in .apk or .aab; when matches exist, the selected output file is
the first match in traversal order (the head of the filtered walk, with no
reordering by name, size or time); and the no-output error is returned at
status 500. -/
theorem protect_apk_output_resolution
    (file : UploadedFile) (form : RequestForm) (env : Env)
    (jrc : Int) (jout jerr : String) (out err : String)
    (hreach : reachesInvocation file)
    (hj : runTool 5 env.javaBehavior = ToolOutcome.completed jrc jout jerr)
    (ht : runTool 300 env.toolBehavior = ToolOutcome.completed 0 out err) :
    ((∃ s, (protect_apk file form env).resp = HResp.errNoOutput s) ↔
        env.outputWalk.filter isOutputExt = []) ∧
    (protect_apk file form env).resolvedOutput
        = (env.outputWalk.filter isOutputExt).head? ∧
    (env.outputWalk.filter isOutputExt = [] →
        respStatus (protect_apk file form env).resp = 500) := by
  obtain ⟨hp, hn, he, hs, hpr⟩ := hreach
  have hns : ¬ (file.bytes.length > max_size) := not_lt.mpr hs
  simp only [protect_apk, hp, hn, he, hns, hpr]
  rw [hj, ht]
  cases hf : env.outputWalk.filter isOutputExt with
  | nil =>
    simp [hf, afterWorkspace, respStatus]
  | cons f rest =>
    simp only [hf]
    repeat' split
    all_goals simp_all [afterWorkspace, respStatus]

/-- C7 witness: at the nominal environment the walk contains one .apk file,
so no NoOutputProduced error is possible and the resolved output is that
first file. -/
theorem protect_apk_output_resolution_witness :
    reachesInvocation file0 ∧
    runTool 5 env0.javaBehavior = ToolOutcome.completed 0 "" "openjdk 21" ∧
    runTool 300 env0.toolBehavior = ToolOutcome.completed 0 "ok" "" ∧
    (((∃ s, (protect_apk file0 form0 env0).resp = HResp.errNoOutput s) ↔
        env0.outputWalk.filter isOutputExt = []) ∧
      (protect_apk file0 form0 env0).resolvedOutput
        = (env0.outputWalk.filter isOutputExt).head? ∧
      (env0.outputWalk.filter isOutputExt = [] →
        respStatus (protect_apk file0 form0 env0).resp = 500)) :=
  ⟨by decide, by decide, by decide,
    protect_apk_output_resolution file0 form0 env0 0 "" "openjdk 21" "ok" ""
      (by decide) (by decide) (by decide)⟩

/-- C8 counterexample: the claim says every filename beginning with the
protected marker is rejected with the AlreadyProcessed error.  A marker
filename with an unaccepted extension is rejected earlier by the type check
at src/app.py line 64, so the error is the invalid-type rejection, not the
already-protected one. -/
theorem protect_apk_marker_with_bad_extension_cex :
    (protect_apk { file0 with filename := "protected_app.txt" } form0 env0).resp
      = HResp.errBadType ∧
    HResp.errBadType ≠ HResp.errAlreadyProtected ∧
    py_startswith "protected_app.txt" "protected_" = true := by
  decide

/-- C8 amended: no upload whose filename begins with the protected marker
ever causes a workspace directory to be created, and when such an upload also
passes the earlier checks (file part present, accepted extension, size within
the limit), the rejection is the AlreadyProcessed error at status 400; a
marker filename failing an earlier check is rejected by that earlier check
instead, still before any workspace allocation. -/
theorem protect_apk_already_protected_guard
    (file : UploadedFile) (form : RequestForm) (env : Env)
    (hm : py_startswith file.filename "protected_" = true) :
    (protect_apk file form env).workspaceCreated = false ∧
    (file.present = true → hasValidExt file.filename = true →
      file.bytes.length ≤ max_size →
      (protect_apk file form env).resp = HResp.errAlreadyProtected ∧
      respStatus (protect_apk file form env).resp = 400) := by
  constructor
  · simp only [protect_apk]
    repeat' split
    all_goals simp_all [earlyReject, afterWorkspace]
  · intro hp he hs
    have hn : file.filename ≠ "" := by
      intro h0
      rw [h0] at hm
      exact absurd hm (by decide)
    have hns : ¬ (file.bytes.length > max_size) := not_lt.mpr hs
    simp [protect_apk, hp, hn, he, hns, hm, earlyReject, respStatus]

/-- C8 witness: a small present upload named protected_app.apk carries the
marker, creates no workspace, and is rejected with the AlreadyProcessed error
at status 400. -/
theorem protect_apk_already_protected_guard_witness :
    py_startswith ({ file0 with filename := "protected_app.apk" } : UploadedFile).filename
        "protected_" = true ∧
    ((protect_apk { file0 with filename := "protected_app.apk" } form0 env0).workspaceCreated
        = false ∧
      (({ file0 with filename := "protected_app.apk" } : UploadedFile).present = true →
        hasValidExt ({ file0 with filename := "protected_app.apk" } : UploadedFile).filename
          = true →
        ({ file0 with filename := "protected_app.apk" } : UploadedFile).bytes.length
          ≤ max_size →
        (protect_apk { file0 with filename := "protected_app.apk" } form0 env0).resp
          = HResp.errAlreadyProtected ∧
        respStatus (protect_apk { file0 with filename := "protected_app.apk" }
          form0 env0).resp = 400)) :=
  ⟨by decide,
    protect_apk_already_protected_guard { file0 with filename := "protected_app.apk" }
      form0 env0 (by decide)⟩

/-- C9: whatever the signature-verification environment does, the job is
unaffected: under the same hypotheses that bring the job to the verification
stage and let the load succeed, every verification outcome, including missing
verifier executables, attempts exceeding their 30 time unit timeout, non-zero
or non-matching results, and raised exceptions, leads to the same successful
file response at status 200. -/
theorem protect_apk_verification_never_fails_job
    (file : UploadedFile) (form : RequestForm) (env : Env)
    (jrc : Int) (jout jerr : String) (out err f : String) (rest : List String)
    (data : List Nat)
    (hreach : reachesInvocation file)
    (hj : runTool 5 env.javaBehavior = ToolOutcome.completed jrc jout jerr)
    (ht : runTool 300 env.toolBehavior = ToolOutcome.completed 0 out err)
    (hw : env.outputWalk.filter isOutputExt = f :: rest)
    (hr : env.readResult = ReadOutcome.ok data) (hd : data ≠ []) :
    ∀ v : VerifyEnv,
      (protect_apk file form { env with verify := v }).resp
        = HResp.fileResponse ("protected_" ++ secure_filename file.filename)
            data data.length ∧
      respStatus (protect_apk file form { env with verify := v }).resp = 200 := by
  intro v
  obtain ⟨hp, hn, he, hs, hpr⟩ := hreach
  have hns : ¬ (file.bytes.length > max_size) := not_lt.mpr hs
  have hlen : ¬ (data.length = 0) := by simpa [List.length_eq_zero] using hd
  simp only [protect_apk, hp, hn, he, hns, hpr]
  rw [show ({ env with verify := v } : Env).javaBehavior = env.javaBehavior from rfl,
      show ({ env with verify := v } : Env).toolBehavior = env.toolBehavior from rfl,
      show ({ env with verify := v } : Env).outputWalk = env.outputWalk from rfl,
      show ({ env with verify := v } : Env).readResult = env.readResult from rfl,
      hj, ht, hw, hr]
  simp [hlen, afterWorkspace, respStatus]

/-- C9 witness: with a verification environment in which the apksigner
attempt exceeds its 30 time unit timeout and the jarsigner attempt raises, a
concrete successful job still answers 200 with the protected file. -/
theorem protect_apk_verification_never_fails_job_witness :
    reachesInvocation file0 ∧
    runTool 5 env0.javaBehavior = ToolOutcome.completed 0 "" "openjdk 21" ∧
    runTool 300 env0.toolBehavior = ToolOutcome.completed 0 "ok" "" ∧
    env0.outputWalk.filter isOutputExt = ["/tmp/apk_protect_x1/output/app.apk"] ∧
    env0.readResult = ReadOutcome.ok [1, 2, 3] ∧
    ([1, 2, 3] : List Nat) ≠ [] ∧
    ((protect_apk file0 form0
        { env0 with verify :=
            { apksignerFound := true, apksignerBehavior := .finishes 31 0 "" "",
              jarsignerBehavior := .raises "broken jarsigner", outerRaised := none } }).resp
        = HResp.fileResponse ("protected_" ++ secure_filename file0.filename)
            [1, 2, 3] (List.length [1, 2, 3]) ∧
      respStatus (protect_apk file0 form0
        { env0 with verify :=
            { apksignerFound := true, apksignerBehavior := .finishes 31 0 "" "",
              jarsignerBehavior := .raises "broken jarsigner", outerRaised := none } }).resp
        = 200) :=
  ⟨by decide, by decide, by decide, by decide, by decide, by decide,
    protect_apk_verification_never_fails_job file0 form0 env0 0 "" "openjdk 21" "ok" ""
      "/tmp/apk_protect_x1/output/app.apk" [] [1, 2, 3]
      (by decide) (by decide) (by decide) (by decide) (by decide) (by decide)
      { apksignerFound := true, apksignerBehavior := .finishes 31 0 "" "",
        jarsignerBehavior := .raises "broken jarsigner", outerRaised := none }⟩

/-- C10: for every present upload with a non-empty name, the handler rejects
with the invalid-type error exactly when the lowercased filename ends in
neither .apk nor .aab; in particular the extension match is case insensitive,
so a name in capitals passes the type check. -/
theorem protect_apk_extension_check_case_insensitive
    (file : UploadedFile) (form : RequestForm) (env : Env)
    (hp : file.present = true) (hn : file.filename ≠ "") :
    ((protect_apk file form env).resp = HResp.errBadType ↔
      ¬ (py_endswith (py_lower file.filename) ".apk" = true ∨
         py_endswith (py_lower file.filename) ".aab" = true)) := by
  by_cases he : hasValidExt file.filename = true
  · have hOr : py_endswith (py_lower file.filename) ".apk" = true ∨
        py_endswith (py_lower file.filename) ".aab" = true := by
      simpa [hasValidExt] using he
    simp only [hOr, not_true, iff_false]
    simp only [protect_apk, hp, hn, he]
    repeat' split
    all_goals simp_all [earlyReject, afterWorkspace]
  · have he' : hasValidExt file.filename = false := by
      simpa using he
    have hOr : ¬ (py_endswith (py_lower file.filename) ".apk" = true ∨
        py_endswith (py_lower file.filename) ".aab" = true) := by
      simpa [hasValidExt] using he'
    simp [protect_apk, hp, hn, he', earlyReject, hOr]

/-- C10 witness: the upper-case name APP.APK satisfies the characterization,
and since its lowercased form ends in .apk the handler does not reject it for
its type. -/
theorem protect_apk_extension_check_case_insensitive_witness :
    ({ file0 with filename := "APP.APK" } : UploadedFile).present = true ∧
    ({ file0 with filename := "APP.APK" } : UploadedFile).filename ≠ "" ∧
    ((protect_apk { file0 with filename := "APP.APK" } form0 env0).resp
        = HResp.errBadType ↔
      ¬ (py_endswith (py_lower ({ file0 with filename := "APP.APK" } :
            UploadedFile).filename) ".apk" = true ∨
         py_endswith (py_lower ({ file0 with filename := "APP.APK" } :
            UploadedFile).filename) ".aab" = true)) :=
  ⟨by decide, by decide,
    protect_apk_extension_check_case_insensitive { file0 with filename := "APP.APK" }
      form0 env0 (by decide) (by decide)⟩
